import Mathlib

/-!
Shallow embedding of `implicit/bpr.pyx` (Bayesian Personalized Ranking).

Modelling conventions:
* `float32` values are modelled as real numbers; all arithmetic is exact.
* The factor matrices are dense matrices given by an entry function together
  with their dimensions (`rows`, `cols`); in-place pointer writes of the
  source become functional single-cell updates, applied in the exact order
  the source performs them (so aliasing `liked == disliked` behaves as in
  the source).
* The per-worker `mt19937` + `uniform_int_distribution` pair is modelled as
  an abstract draw stream `rng : Nat -> Nat`; the distribution's range
  `[0, N-1]` appears as the hypothesis `∀ n, rng n < N` where needed.
* `bpr_update` is embedded with its single-worker (`num_threads = 1`)
  semantics: `prange` with one thread processes the sample positions
  `i = 0, ..., samples-1` in order, and sample `i` consumes draws
  `rng (2*i)` and `rng (2*i+1)`.
-/

namespace BPR

/-- A dense row-major matrix of reals, as `float[:, :]` memoryviews are
used in the source: an entry function plus the shape. -/
structure Mat where
  rows : Nat
  cols : Nat
  entry : Nat → Nat → ℝ

/-- Single-cell in-place write `M[r, c] = v`. -/
def Mat.set (M : Mat) (r c : Nat) (v : ℝ) : Mat :=
  { M with entry := fun r' c' => if r' = r ∧ c' = c then v else M.entry r' c' }

/-- The score `dot(U[u], V[liked] - V[disliked])` over all `factors + 1`
columns, as computed by the loop `for j in range(factors + 1)` in
`bpr_update`. -/
def scoreOf (factors : Nat) (u liked disliked : Nat) (X Y : Mat) : ℝ :=
  ∑ j ∈ Finset.range (factors + 1),
    X.entry u j * (Y.entry liked j - Y.entry disliked j)

/-- The sigmoid transform `z = 1.0 / (1.0 + exp(score))`. -/
noncomputable def zOf (score : ℝ) : ℝ := 1 / (1 + Real.exp score)

/-- One iteration of the inner SGD loop, effect on `X`:
`user[j] += learning_rate * (z * (liked[j] - disliked[j]) - reg * user[j])`
(reads of `liked[j]`, `disliked[j]`, `user[j]` happen before any write of
this iteration). -/
def sgdIterX (lr reg z : ℝ) (u liked disliked j : Nat) (X Y : Mat) : Mat :=
  X.set u j
    (X.entry u j + lr * (z * (Y.entry liked j - Y.entry disliked j) - reg * X.entry u j))

/-- One iteration of the inner SGD loop, effect on `Y`, with
`t = user[j]` the snapshot taken before `user[j]` was overwritten:
`liked[j] += learning_rate * (z * temp - reg * liked[j])` and then
`disliked[j] += learning_rate * (-z * temp - reg * disliked[j])`.  The
second write reads the value left by the first, which matters when
`liked == disliked`. -/
def sgdIterY (lr reg z : ℝ) (u liked disliked j : Nat) (X Y : Mat) : Mat :=
  let t := X.entry u j
  let Y1 := Y.set liked j (Y.entry liked j + lr * (z * t - reg * Y.entry liked j))
  Y1.set disliked j (Y1.entry disliked j + lr * (-z * t - reg * Y1.entry disliked j))

/-- The inner SGD loop `for j in range(factors)` of `bpr_update`, over an
explicit list of column indices, in source order. -/
def sgdLoop (lr reg z : ℝ) (u liked disliked : Nat) :
    List Nat → Mat → Mat → Mat × Mat
  | [], X, Y => (X, Y)
  | j :: js, X, Y =>
    sgdLoop lr reg z u liked disliked js
      (sgdIterX lr reg z u liked disliked j X Y)
      (sgdIterY lr reg z u liked disliked j X Y)

/-- The two item-bias updates on column `factors` at the end of a sample:
`liked[factors] += learning_rate * (z - reg * liked[factors])` then
`disliked[factors] += learning_rate * (-z - reg * disliked[factors])`. -/
def biasUpd (lr reg z : ℝ) (liked disliked factors : Nat) (Y : Mat) : Mat :=
  let Y1 := Y.set liked factors
    (Y.entry liked factors + lr * (z - reg * Y.entry liked factors))
  Y1.set disliked factors
    (Y1.entry disliked factors + lr * (-z - reg * Y1.entry disliked factors))

/-- One sample of `bpr_update`: score, sigmoid, correctness test `z < .5`,
the inner SGD loop over the `factors` learned dimensions, then the two
item bias updates.  Returns the new `X`, the new `Y`, and whether this
sample was counted as correct. -/
noncomputable def bprStep (lr reg : ℝ) (factors : Nat) (u liked disliked : Nat)
    (X Y : Mat) : Mat × Mat × Bool :=
  let z := zOf (scoreOf factors u liked disliked X Y)
  let p := sgdLoop lr reg z u liked disliked (List.range factors) X Y
  (p.1, biasUpd lr reg z liked disliked factors p.2,
    @decide (z < 1 / 2) (Classical.propDecidable _))

/-- The first `n` iterations of the single-worker sample loop of
`bpr_update`: sample `i` draws `liked_index = rng (2*i)` and
`disliked_index = rng (2*i+1)`, looks up
`u = userids[liked_index]`, `liked = itemids[liked_index]`,
`disliked = itemids[disliked_index]`, and applies `bprStep`,
accumulating the correct count. -/
noncomputable def bprIter (rng : Nat → Nat) (userids itemids : List Nat)
    (lr reg : ℝ) (factors : Nat) (X Y : Mat) : Nat → Mat × Mat × Nat
  | 0 => (X, Y, 0)
  | i + 1 =>
    let s := bprIter rng userids itemids lr reg factors X Y i
    let r := bprStep lr reg factors (userids.getD (rng (2 * i)) 0)
      (itemids.getD (rng (2 * i)) 0) (itemids.getD (rng (2 * i + 1)) 0) s.1 s.2.1
    (r.1, r.2.1, s.2.2 + if r.2.2 then 1 else 0)

/-- The updater `bpr_update` with `num_threads = 1`: `factors = X.shape[1] - 1`,
`samples = len(userids)`; returns the final matrices and the correct
count. -/
noncomputable def bpr_update (rng : Nat → Nat) (userids itemids : List Nat)
    (X Y : Mat) (lr reg : ℝ) : Mat × Mat × Nat :=
  bprIter rng userids itemids lr reg (X.cols - 1) X Y userids.length

/-- The score of sample `i` of an epoch, computed on the state *before*
that sample's update is applied (this is the quantity whose sign decides
the correct count). -/
noncomputable def sampleScore (rng : Nat → Nat) (userids itemids : List Nat)
    (lr reg : ℝ) (factors : Nat) (X Y : Mat) (i : Nat) : ℝ :=
  let s := bprIter rng userids itemids lr reg factors X Y i
  scoreOf factors (userids.getD (rng (2 * i)) 0)
    (itemids.getD (rng (2 * i)) 0) (itemids.getD (rng (2 * i + 1)) 0) s.1 s.2.1

/-! ## The training entry point `fit` -/

/-- Numeric dtype of the input matrix; `fit` only distinguishes
`np.float32` from everything else. -/
inductive Dtype where
  | float32
  | other
deriving DecidableEq

/-- A COO sparse matrix as `fit` consumes it: rows are items, columns are
users, aligned coordinate arrays `row` (item ids) and `col` (user ids),
a data array, a shape and a dtype. -/
structure Coo where
  nrows : Nat
  ncols : Nat
  row : List Nat
  col : List Nat
  data : List ℝ
  dtype : Dtype

/-- The coercion `if Ciu.dtype != np.float32: Ciu = Ciu.astype(np.float32)` — the cast
changes the element representation, not the real values modelled here. -/
def astypeF32 (c : Coo) : Coo :=
  if c.dtype = Dtype.float32 then c else { c with dtype := Dtype.float32 }

/-- The model object: hyperparameters plus the retained factor matrices
(`None` before the first `fit`). -/
structure BPRModel where
  factors : Nat
  learning_rate : ℝ
  regularization : ℝ
  iterations : Nat
  use_gpu : Bool
  num_threads : Nat
  item_factors : Option Mat
  user_factors : Option Mat

/-- External sources of randomness and the external CUDA collaborator.
`randItem`/`randUser` model the `np.random.rand` draws used to initialize
the factor matrices; `rng` is the (single) worker's sampler stream;
`seedStream` models the successive `np.random.randint(2**31)` draws used
to seed the device epochs; `cuUpdate` is the device backend.

`cuUpdate` is modelled from the spec: `implicit.cuda.cu_bpr_update` is not
part of the source under verification; per the spec it runs one
device-resident epoch of the same sample/score/update algorithm from an
integer seed, consuming only the presence of interactions (the coordinate
arrays), never the entry values. -/
structure Externals where
  randItem : Nat → Nat → ℝ
  randUser : Nat → Nat → ℝ
  rng : Nat → Nat
  hasCuda : Bool
  seedStream : Nat → Nat
  cuUpdate : List Nat → List Nat → Mat → Mat → ℝ → ℝ → Nat → Mat × Mat

/-- Errors `fit` can raise. -/
inductive FitError where
  | noCuda
deriving DecidableEq

/-- Length of the boolean mask `np.bincount(ids) == 0`: the source calls
`np.bincount` without `minlength`, so the mask has length `max(ids) + 1`
(0 for an empty array), not the number of matrix rows. -/
def bincountLen (ids : List Nat) : Nat :=
  if ids.isEmpty then 0 else ids.foldr Nat.max 0 + 1

/-- Initialization `self.item_factors = np.random.rand(items, factors+1)` followed by
`self.item_factors[np.bincount(Ciu.row) == 0] = np.zeros(factors+1)`:
an item row is zeroed when it has no observed interaction AND its index
is covered by the bincount mask, which only reaches `max(Ciu.row) + 1`
rows.  Item rows beyond the mask are never zeroed: numpy before 1.13
zero-pads the short boolean mask and silently skips them (the semantics
embedded here); numpy 1.13 and later raises `IndexError` on this line
instead, before any training — an error path this total model does not
carry, accounted for in the claim analysis. -/
def initItemFactors (ext : Externals) (items factors : Nat) (rowIds : List Nat) : Mat :=
  { rows := items
    cols := factors + 1
    entry := fun i j =>
      if i < bincountLen rowIds ∧ rowIds.count i = 0 then 0
      else ext.randItem i j }

/-- Initialization `self.user_factors = np.random.rand(users, factors+1)` followed by
`self.user_factors[np.bincount(Ciu.col) == 0] = np.zeros(factors+1)` and
`self.user_factors[:, factors] = 1.0`: a user row is zeroed when it has
no observed interaction AND its index is covered by the bincount mask
(length `max(Ciu.col) + 1`; same short-mask behavior as
`initItemFactors`); afterwards the bias column of *every* row — zeroed,
random, or beyond the mask — is set to 1. -/
def initUserFactors (ext : Externals) (users factors : Nat) (colIds : List Nat) : Mat :=
  { rows := users
    cols := factors + 1
    entry := fun u j =>
      if j = factors then 1
      else if u < bincountLen colIds ∧ colIds.count u = 0 then 0
      else ext.randUser u j }

/-- Advance a draw stream past its first `k` draws. -/
def shiftRng (rng : Nat → Nat) (k : Nat) : Nat → Nat := fun n => rng (n + k)

/-- The CPU epoch loop `for epoch in range(self.iterations)`: each epoch
invokes `bpr_update`; the worker RNG state persists across epochs, so
epoch `e` continues the stream where epoch `e-1` stopped (`2 * samples`
draws per epoch).  The per-epoch correct count is only logged. -/
noncomputable def runEpochs (rng : Nat → Nat) (userids itemids : List Nat)
    (lr reg : ℝ) : Nat → Mat → Mat → Mat × Mat
  | 0, X, Y => (X, Y)
  | e + 1, X, Y =>
    let r := bpr_update rng userids itemids X Y lr reg
    runEpochs (shiftRng rng (2 * userids.length)) userids itemids lr reg e r.1 r.2.1

/-- The device epoch loop of `_fit_gpu`: upload once, run `iterations`
epochs each seeded by a fresh `np.random.randint(2**31)` draw, download
once.  Modelled from the spec (see `Externals.cuUpdate`). -/
def runGpuEpochs (ext : Externals) (rowIds colIds : List Nat)
    (lr reg : ℝ) : Nat → Nat → Mat → Mat → Mat × Mat
  | _, 0, X, Y => (X, Y)
  | e0, e + 1, X, Y =>
    let r := ext.cuUpdate rowIds colIds X Y lr reg (ext.seedStream e0)
    runGpuEpochs ext rowIds colIds lr reg (e0 + 1) e r.1 r.2

/-- The part of `fit` after the COO/dtype coercion: factor initialization
(only when the matrices are not retained from a prior call), then the GPU
branch or the CPU epoch loop.  The source performs no validation of the
input shape against retained factor matrices.

Two real failure modes are outside this total model and are confined by
explicit hypotheses wherever a theorem touches their region: (a) on
numpy ≥ 1.13 the short-bincount masked zeroing inside cold-start
initialization raises `IndexError` (before the GPU check) whenever some
trailing row has no interaction — the model embeds the earlier numpy
semantics where those rows are silently skipped (see `initItemFactors`);
(b) with `boundscheck(False)`, interaction ids at or beyond a factor
matrix's row count make `bpr_update` read and write out of bounds —
undefined behavior, not an error return — while the model's total
`Mat.entry` yields values there, so no theorem asserts a normal return
for such a call without in-bounds hypotheses on the ids. -/
noncomputable def fitCoo (m : BPRModel) (ext : Externals) (Ciu : Coo) :
    Except FitError BPRModel :=
  let items := Ciu.nrows
  let users := Ciu.ncols
  let Y0 := m.item_factors.getD (initItemFactors ext items m.factors Ciu.row)
  let X0 := m.user_factors.getD (initUserFactors ext users m.factors Ciu.col)
  if m.use_gpu then
    if ext.hasCuda then
      let r := runGpuEpochs ext Ciu.row Ciu.col m.learning_rate m.regularization
        0 m.iterations X0 Y0
      Except.ok { m with user_factors := some r.1, item_factors := some r.2 }
    else Except.error FitError.noCuda
  else
    let r := runEpochs ext.rng Ciu.col Ciu.row m.learning_rate m.regularization
      m.iterations X0 Y0
    Except.ok { m with user_factors := some r.1, item_factors := some r.2 }

/-- The training entry point `fit`: coerce the input to `float32` if
needed, then train. -/
noncomputable def fit (m : BPRModel) (ext : Externals) (input : Coo) :
    Except FitError BPRModel :=
  fitCoo m ext (astypeF32 input)

/-- Whether a `fit` call returned normally. -/
def fitSucceeds (x : Except FitError BPRModel) : Bool :=
  match x with
  | Except.ok _ => true
  | Except.error _ => false

/-- An arbitrary matrix, used to eliminate `Option Mat`. -/
def dummyMat : Mat := { rows := 0, cols := 0, entry := fun _ _ => 0 }

/-! ## Concrete instances for evaluating the development -/

/-- A concrete 2×2 all-zero matrix (one learned factor plus the bias
column). -/
def mat0 : Mat := { rows := 2, cols := 2, entry := fun _ _ => 0 }

/-- A concrete 5×2 matrix, a factor matrix retained from a prior `fit`
over a 5-item, 5-user dataset. -/
noncomputable def matRetained : Mat :=
  { rows := 5, cols := 2, entry := fun _ _ => 1 / 2 }

/-- A concrete sampler stream that always draws position 0; in particular
it draws `p_liked == p_disliked`. -/
def rng0 : Nat → Nat := fun _ => 0

/-- Concrete externals: no CUDA backend, constant random draws. -/
noncomputable def extC : Externals :=
  { randItem := fun _ _ => 1 / 2
    randUser := fun _ _ => 1 / 2
    rng := rng0
    hasCuda := false
    seedStream := fun _ => 0
    cuUpdate := fun _ _ X Y _ _ _ => (X, Y) }

/-- A 2-item × 2-user input with a single observed interaction
(item 0, user 0): item 1 and user 1 have zero observed interactions. -/
noncomputable def cooA : Coo :=
  { nrows := 2, ncols := 2, row := [0], col := [0], data := [1],
    dtype := Dtype.float32 }

/-- A 3-item × 3-user input with two observed interactions, whose shape
mismatches the 5-row factor matrices of `mMismatch` while all its item
and user ids stay below 5; its dtype is not `float32`. -/
noncomputable def cooB : Coo :=
  { nrows := 3, ncols := 3, row := [2, 1], col := [2, 0], data := [5, 3],
    dtype := Dtype.other }

/-- A 3-item × 3-user input with a single observed interaction
(item 1, user 1): items 0 and 2 and users 0 and 2 have zero observed
interactions; the bincount masks have length 2, so item 0 and user 0 are
covered by the masks while item 2 and user 2 lie beyond them. -/
noncomputable def cooE : Coo :=
  { nrows := 3, ncols := 3, row := [1], col := [1], data := [1],
    dtype := Dtype.float32 }

/-- The same interaction pattern as `cooA` but with a different non-zero
value and a different dtype. -/
noncomputable def cooD : Coo :=
  { nrows := 2, ncols := 2, row := [0], col := [0], data := [7],
    dtype := Dtype.other }

/-- A freshly constructed model: one latent factor, one epoch, CPU path,
no retained factor matrices. -/
noncomputable def mCold : BPRModel :=
  { factors := 1, learning_rate := 1 / 10, regularization := 0,
    iterations := 1, use_gpu := false, num_threads := 1,
    item_factors := none, user_factors := none }

/-- The model `mCold` with the device-offload flag set. -/
noncomputable def mGpu : BPRModel := { mCold with use_gpu := true }

/-- A model retaining 5-row factor matrices from a prior call, about to be
fed the 3×3 input `cooB`. -/
noncomputable def mMismatch : BPRModel :=
  { factors := 1, learning_rate := 1 / 10, regularization := 0,
    iterations := 1, use_gpu := false, num_threads := 1,
    item_factors := some matRetained, user_factors := some matRetained }

/-- A model retaining the factor matrices `mat0` from a prior call. -/
noncomputable def mWarm : BPRModel :=
  { factors := 1, learning_rate := 1 / 10, regularization := 0,
    iterations := 1, use_gpu := false, num_threads := 1,
    item_factors := some mat0, user_factors := some mat0 }

/-- The model produced by fitting `mCold` on `cooA`. -/
noncomputable def fitColdResult : BPRModel :=
  (fit mCold extC cooA).toOption.getD mCold

/-- The model produced by fitting `mCold` on `cooE`. -/
noncomputable def fitCooEResult : BPRModel :=
  (fit mCold extC cooE).toOption.getD mCold

/-! ## Basic lemmas -/

@[simp] theorem Mat.set_rows (M : Mat) (r c : Nat) (v : ℝ) :
    (M.set r c v).rows = M.rows := rfl

@[simp] theorem Mat.set_cols (M : Mat) (r c : Nat) (v : ℝ) :
    (M.set r c v).cols = M.cols := rfl

theorem Mat.set_entry (M : Mat) (r c : Nat) (v : ℝ) (r' c' : Nat) :
    (M.set r c v).entry r' c' = if r' = r ∧ c' = c then v else M.entry r' c' := rfl

@[simp] theorem Mat.set_entry_same (M : Mat) (r c : Nat) (v : ℝ) :
    (M.set r c v).entry r c = v := by simp [Mat.set]

theorem Mat.set_entry_ne (M : Mat) (r c : Nat) (v : ℝ) (r' c' : Nat)
    (h : ¬(r' = r ∧ c' = c)) : (M.set r c v).entry r' c' = M.entry r' c' := by
  simp [Mat.set, h]

@[simp] theorem astypeF32_row (c : Coo) : (astypeF32 c).row = c.row := by
  unfold astypeF32; split <;> rfl

@[simp] theorem astypeF32_col (c : Coo) : (astypeF32 c).col = c.col := by
  unfold astypeF32; split <;> rfl

@[simp] theorem astypeF32_nrows (c : Coo) : (astypeF32 c).nrows = c.nrows := by
  unfold astypeF32; split <;> rfl

@[simp] theorem astypeF32_ncols (c : Coo) : (astypeF32 c).ncols = c.ncols := by
  unfold astypeF32; split <;> rfl

@[simp] theorem astypeF32_dtype (c : Coo) : (astypeF32 c).dtype = Dtype.float32 := by
  unfold astypeF32; split <;> simp_all

/-- The sigmoid test of the source: `z < .5` holds exactly when the score
is strictly positive. -/
theorem zOf_lt_half_iff (s : ℝ) : zOf s < 1 / 2 ↔ 0 < s := by
  unfold zOf
  rw [div_lt_div_iff₀ (by positivity) (by norm_num)]
  have h := Real.exp_lt_exp (x := 0) (y := s)
  simp only [Real.exp_zero] at h
  constructor
  · intro hlt
    exact h.mp (by linarith)
  · intro hs
    have := h.mpr hs
    linarith

/-! ## One-iteration lemmas -/

@[simp] theorem sgdIterX_rows {lr reg z : ℝ} {u liked disliked j : Nat} {X Y : Mat} :
    (sgdIterX lr reg z u liked disliked j X Y).rows = X.rows := rfl

@[simp] theorem sgdIterX_cols {lr reg z : ℝ} {u liked disliked j : Nat} {X Y : Mat} :
    (sgdIterX lr reg z u liked disliked j X Y).cols = X.cols := rfl

@[simp] theorem sgdIterY_rows {lr reg z : ℝ} {u liked disliked j : Nat} {X Y : Mat} :
    (sgdIterY lr reg z u liked disliked j X Y).rows = Y.rows := rfl

@[simp] theorem sgdIterY_cols {lr reg z : ℝ} {u liked disliked j : Nat} {X Y : Mat} :
    (sgdIterY lr reg z u liked disliked j X Y).cols = Y.cols := rfl

@[simp] theorem biasUpd_rows {lr reg z : ℝ} {liked disliked factors : Nat} {Y : Mat} :
    (biasUpd lr reg z liked disliked factors Y).rows = Y.rows := rfl

@[simp] theorem biasUpd_cols {lr reg z : ℝ} {liked disliked factors : Nat} {Y : Mat} :
    (biasUpd lr reg z liked disliked factors Y).cols = Y.cols := rfl

theorem sgdIterX_entry_ne {lr reg z : ℝ} {u liked disliked j : Nat} {X Y : Mat}
    {r c : Nat} (h : ¬(r = u ∧ c = j)) :
    (sgdIterX lr reg z u liked disliked j X Y).entry r c = X.entry r c := by
  simp [sgdIterX, Mat.set_entry, h]

theorem sgdIterX_entry_same {lr reg z : ℝ} {u liked disliked j : Nat} {X Y : Mat} :
    (sgdIterX lr reg z u liked disliked j X Y).entry u j
      = X.entry u j
        + lr * (z * (Y.entry liked j - Y.entry disliked j) - reg * X.entry u j) := by
  simp [sgdIterX]

theorem sgdIterY_entry_ne {lr reg z : ℝ} {u liked disliked j : Nat} {X Y : Mat}
    {r c : Nat} (h1 : ¬(r = liked ∧ c = j)) (h2 : ¬(r = disliked ∧ c = j)) :
    (sgdIterY lr reg z u liked disliked j X Y).entry r c = Y.entry r c := by
  simp [sgdIterY, Mat.set_entry, h1, h2]

theorem sgdIterY_entry_liked {lr reg z : ℝ} {u liked disliked j : Nat} {X Y : Mat}
    (hld : liked ≠ disliked) :
    (sgdIterY lr reg z u liked disliked j X Y).entry liked j
      = Y.entry liked j + lr * (z * X.entry u j - reg * Y.entry liked j) := by
  simp [sgdIterY, Mat.set_entry, hld]

theorem sgdIterY_entry_disliked {lr reg z : ℝ} {u liked disliked j : Nat} {X Y : Mat}
    (hld : liked ≠ disliked) :
    (sgdIterY lr reg z u liked disliked j X Y).entry disliked j
      = Y.entry disliked j + lr * (-z * X.entry u j - reg * Y.entry disliked j) := by
  simp [sgdIterY, Mat.set_entry, Ne.symm hld]

theorem biasUpd_entry_ne {lr reg z : ℝ} {liked disliked factors : Nat} {Y : Mat}
    {r c : Nat} (h1 : ¬(r = liked ∧ c = factors)) (h2 : ¬(r = disliked ∧ c = factors)) :
    (biasUpd lr reg z liked disliked factors Y).entry r c = Y.entry r c := by
  simp [biasUpd, Mat.set_entry, h1, h2]

theorem biasUpd_entry_liked {lr reg z : ℝ} {liked disliked factors : Nat} {Y : Mat}
    (hld : liked ≠ disliked) :
    (biasUpd lr reg z liked disliked factors Y).entry liked factors
      = Y.entry liked factors + lr * (z - reg * Y.entry liked factors) := by
  simp [biasUpd, Mat.set_entry, hld]

theorem biasUpd_entry_disliked {lr reg z : ℝ} {liked disliked factors : Nat} {Y : Mat}
    (hld : liked ≠ disliked) :
    (biasUpd lr reg z liked disliked factors Y).entry disliked factors
      = Y.entry disliked factors + lr * (-z - reg * Y.entry disliked factors) := by
  simp [biasUpd, Mat.set_entry, Ne.symm hld]

/-! ## Inner-loop lemmas -/

@[simp] theorem sgdLoop_fst_rows {lr reg z : ℝ} {u liked disliked : Nat}
    {js : List Nat} {X Y : Mat} :
    (sgdLoop lr reg z u liked disliked js X Y).1.rows = X.rows := by
  induction js generalizing X Y with
  | nil => rfl
  | cons j js ih => simp [sgdLoop, ih]

@[simp] theorem sgdLoop_fst_cols {lr reg z : ℝ} {u liked disliked : Nat}
    {js : List Nat} {X Y : Mat} :
    (sgdLoop lr reg z u liked disliked js X Y).1.cols = X.cols := by
  induction js generalizing X Y with
  | nil => rfl
  | cons j js ih => simp [sgdLoop, ih]

@[simp] theorem sgdLoop_snd_rows {lr reg z : ℝ} {u liked disliked : Nat}
    {js : List Nat} {X Y : Mat} :
    (sgdLoop lr reg z u liked disliked js X Y).2.rows = Y.rows := by
  induction js generalizing X Y with
  | nil => rfl
  | cons j js ih => simp [sgdLoop, ih]

@[simp] theorem sgdLoop_snd_cols {lr reg z : ℝ} {u liked disliked : Nat}
    {js : List Nat} {X Y : Mat} :
    (sgdLoop lr reg z u liked disliked js X Y).2.cols = Y.cols := by
  induction js generalizing X Y with
  | nil => rfl
  | cons j js ih => simp [sgdLoop, ih]

theorem sgdLoop_X_untouched {lr reg z : ℝ} {u liked disliked : Nat}
    {js : List Nat} {X Y : Mat} {r c : Nat} (h : r ≠ u ∨ c ∉ js) :
    (sgdLoop lr reg z u liked disliked js X Y).1.entry r c = X.entry r c := by
  induction js generalizing X Y with
  | nil => rfl
  | cons j js ih =>
    have hne : ¬(r = u ∧ c = j) := by
      rcases h with h | h
      · exact fun hc => h hc.1
      · exact fun hc => h (by simp [hc.2])
    have h' : r ≠ u ∨ c ∉ js := by
      rcases h with h | h
      · exact Or.inl h
      · exact Or.inr fun hc => h (List.mem_cons_of_mem _ hc)
    simp only [sgdLoop]
    rw [ih h', sgdIterX_entry_ne hne]

theorem sgdLoop_Y_untouched {lr reg z : ℝ} {u liked disliked : Nat}
    {js : List Nat} {X Y : Mat} {r c : Nat}
    (h : (r ≠ liked ∧ r ≠ disliked) ∨ c ∉ js) :
    (sgdLoop lr reg z u liked disliked js X Y).2.entry r c = Y.entry r c := by
  induction js generalizing X Y with
  | nil => rfl
  | cons j js ih =>
    have hne1 : ¬(r = liked ∧ c = j) := by
      rcases h with h | h
      · exact fun hc => h.1 hc.1
      · exact fun hc => h (by simp [hc.2])
    have hne2 : ¬(r = disliked ∧ c = j) := by
      rcases h with h | h
      · exact fun hc => h.2 hc.1
      · exact fun hc => h (by simp [hc.2])
    have h' : (r ≠ liked ∧ r ≠ disliked) ∨ c ∉ js := by
      rcases h with h | h
      · exact Or.inl h
      · exact Or.inr fun hc => h (List.mem_cons_of_mem _ hc)
    simp only [sgdLoop]
    rw [ih h', sgdIterY_entry_ne hne1 hne2]

theorem sgdLoop_X_formula {lr reg z : ℝ} {u liked disliked : Nat}
    {js : List Nat} (hnd : js.Nodup) {X Y : Mat} {c : Nat} (hc : c ∈ js) :
    (sgdLoop lr reg z u liked disliked js X Y).1.entry u c
      = X.entry u c
        + lr * (z * (Y.entry liked c - Y.entry disliked c) - reg * X.entry u c) := by
  induction js generalizing X Y with
  | nil => cases hc
  | cons j js ih =>
    rcases List.mem_cons.mp hc with rfl | hc'
    · simp only [sgdLoop]
      rw [sgdLoop_X_untouched (Or.inr (List.nodup_cons.mp hnd).1),
        sgdIterX_entry_same]
    · have hcj : c ≠ j := by
        rintro rfl
        exact (List.nodup_cons.mp hnd).1 hc'
      simp only [sgdLoop]
      rw [ih (List.nodup_cons.mp hnd).2 hc',
        sgdIterX_entry_ne (fun hh => hcj hh.2),
        sgdIterY_entry_ne (fun hh => hcj hh.2) (fun hh => hcj hh.2),
        sgdIterY_entry_ne (fun hh => hcj hh.2) (fun hh => hcj hh.2)]

theorem sgdLoop_Y_liked_formula {lr reg z : ℝ} {u liked disliked : Nat}
    {js : List Nat} (hnd : js.Nodup) (hld : liked ≠ disliked)
    {X Y : Mat} {c : Nat} (hc : c ∈ js) :
    (sgdLoop lr reg z u liked disliked js X Y).2.entry liked c
      = Y.entry liked c + lr * (z * X.entry u c - reg * Y.entry liked c) := by
  induction js generalizing X Y with
  | nil => cases hc
  | cons j js ih =>
    rcases List.mem_cons.mp hc with rfl | hc'
    · simp only [sgdLoop]
      rw [sgdLoop_Y_untouched (Or.inr (List.nodup_cons.mp hnd).1),
        sgdIterY_entry_liked hld]
    · have hcj : c ≠ j := by
        rintro rfl
        exact (List.nodup_cons.mp hnd).1 hc'
      simp only [sgdLoop]
      rw [ih (List.nodup_cons.mp hnd).2 hc',
        sgdIterY_entry_ne (fun hh => hcj hh.2) (fun hh => hcj hh.2),
        sgdIterX_entry_ne (fun hh => hcj hh.2)]

theorem sgdLoop_Y_disliked_formula {lr reg z : ℝ} {u liked disliked : Nat}
    {js : List Nat} (hnd : js.Nodup) (hld : liked ≠ disliked)
    {X Y : Mat} {c : Nat} (hc : c ∈ js) :
    (sgdLoop lr reg z u liked disliked js X Y).2.entry disliked c
      = Y.entry disliked c + lr * (-z * X.entry u c - reg * Y.entry disliked c) := by
  induction js generalizing X Y with
  | nil => cases hc
  | cons j js ih =>
    rcases List.mem_cons.mp hc with rfl | hc'
    · simp only [sgdLoop]
      rw [sgdLoop_Y_untouched (Or.inr (List.nodup_cons.mp hnd).1),
        sgdIterY_entry_disliked hld]
    · have hcj : c ≠ j := by
        rintro rfl
        exact (List.nodup_cons.mp hnd).1 hc'
      simp only [sgdLoop]
      rw [ih (List.nodup_cons.mp hnd).2 hc',
        sgdIterY_entry_ne (fun hh => hcj hh.2) (fun hh => hcj hh.2),
        sgdIterX_entry_ne (fun hh => hcj hh.2)]

/-! ## Per-sample lemmas -/

@[simp] theorem bprStep_fst_rows {lr reg : ℝ} {factors u liked disliked : Nat}
    {X Y : Mat} : (bprStep lr reg factors u liked disliked X Y).1.rows = X.rows := by
  simp [bprStep]

@[simp] theorem bprStep_fst_cols {lr reg : ℝ} {factors u liked disliked : Nat}
    {X Y : Mat} : (bprStep lr reg factors u liked disliked X Y).1.cols = X.cols := by
  simp [bprStep]

@[simp] theorem bprStep_snd_rows {lr reg : ℝ} {factors u liked disliked : Nat}
    {X Y : Mat} : (bprStep lr reg factors u liked disliked X Y).2.1.rows = Y.rows := by
  simp [bprStep]

@[simp] theorem bprStep_snd_cols {lr reg : ℝ} {factors u liked disliked : Nat}
    {X Y : Mat} : (bprStep lr reg factors u liked disliked X Y).2.1.cols = Y.cols := by
  simp [bprStep]

theorem bprStep_X_untouched {lr reg : ℝ} {factors u liked disliked : Nat}
    {X Y : Mat} {r c : Nat} (h : r ≠ u ∨ ¬c < factors) :
    (bprStep lr reg factors u liked disliked X Y).1.entry r c = X.entry r c := by
  unfold bprStep
  exact sgdLoop_X_untouched (by simpa [List.mem_range] using h)

theorem bprStep_Y_untouched {lr reg : ℝ} {factors u liked disliked : Nat}
    {X Y : Mat} {r c : Nat} (h : r ≠ liked ∧ r ≠ disliked) :
    (bprStep lr reg factors u liked disliked X Y).2.1.entry r c = Y.entry r c := by
  unfold bprStep
  rw [biasUpd_entry_ne (fun hh => h.1 hh.1) (fun hh => h.2 hh.1),
    sgdLoop_Y_untouched (Or.inl h)]

theorem bprStep_X_formula {lr reg : ℝ} {factors u liked disliked : Nat}
    {X Y : Mat} {c : Nat} (hc : c < factors) :
    (bprStep lr reg factors u liked disliked X Y).1.entry u c
      = X.entry u c
        + lr * (zOf (scoreOf factors u liked disliked X Y)
            * (Y.entry liked c - Y.entry disliked c) - reg * X.entry u c) := by
  unfold bprStep
  exact sgdLoop_X_formula (List.nodup_range _) (List.mem_range.mpr hc)

theorem bprStep_Y_liked_formula {lr reg : ℝ} {factors u liked disliked : Nat}
    (hld : liked ≠ disliked) {X Y : Mat} {c : Nat} (hc : c < factors) :
    (bprStep lr reg factors u liked disliked X Y).2.1.entry liked c
      = Y.entry liked c
        + lr * (zOf (scoreOf factors u liked disliked X Y) * X.entry u c
            - reg * Y.entry liked c) := by
  unfold bprStep
  have hcf : c ≠ factors := Nat.ne_of_lt hc
  rw [biasUpd_entry_ne (fun hh => hcf hh.2) (fun hh => hcf hh.2),
    sgdLoop_Y_liked_formula (List.nodup_range _) hld (List.mem_range.mpr hc)]

theorem bprStep_Y_disliked_formula {lr reg : ℝ} {factors u liked disliked : Nat}
    (hld : liked ≠ disliked) {X Y : Mat} {c : Nat} (hc : c < factors) :
    (bprStep lr reg factors u liked disliked X Y).2.1.entry disliked c
      = Y.entry disliked c
        + lr * (-zOf (scoreOf factors u liked disliked X Y) * X.entry u c
            - reg * Y.entry disliked c) := by
  unfold bprStep
  have hcf : c ≠ factors := Nat.ne_of_lt hc
  rw [biasUpd_entry_ne (fun hh => hcf hh.2) (fun hh => hcf hh.2),
    sgdLoop_Y_disliked_formula (List.nodup_range _) hld (List.mem_range.mpr hc)]

theorem bprStep_Y_liked_bias {lr reg : ℝ} {factors u liked disliked : Nat}
    (hld : liked ≠ disliked) {X Y : Mat} :
    (bprStep lr reg factors u liked disliked X Y).2.1.entry liked factors
      = Y.entry liked factors
        + lr * (zOf (scoreOf factors u liked disliked X Y)
            - reg * Y.entry liked factors) := by
  unfold bprStep
  rw [biasUpd_entry_liked hld,
    sgdLoop_Y_untouched (Or.inr (by simp [List.mem_range]))]

theorem bprStep_Y_disliked_bias {lr reg : ℝ} {factors u liked disliked : Nat}
    (hld : liked ≠ disliked) {X Y : Mat} :
    (bprStep lr reg factors u liked disliked X Y).2.1.entry disliked factors
      = Y.entry disliked factors
        + lr * (-zOf (scoreOf factors u liked disliked X Y)
            - reg * Y.entry disliked factors) := by
  unfold bprStep
  rw [biasUpd_entry_disliked hld,
    sgdLoop_Y_untouched (Or.inr (by simp [List.mem_range]))]

theorem bprStep_X_bias {lr reg : ℝ} {factors u liked disliked : Nat}
    {X Y : Mat} (r : Nat) :
    (bprStep lr reg factors u liked disliked X Y).1.entry r factors
      = X.entry r factors :=
  bprStep_X_untouched (Or.inr (by omega))

theorem bprStep_correct_iff {lr reg : ℝ} {factors u liked disliked : Nat}
    {X Y : Mat} :
    (bprStep lr reg factors u liked disliked X Y).2.2 = true
      ↔ 0 < scoreOf factors u liked disliked X Y := by
  unfold bprStep
  rw [@decide_eq_true_iff _ (Classical.propDecidable _)]
  exact zOf_lt_half_iff _

/-! ## Sample-loop lemmas -/

@[simp] theorem bprIter_fst_rows {rng : Nat → Nat} {uids iids : List Nat}
    {lr reg : ℝ} {factors : Nat} {X Y : Mat} {n : Nat} :
    (bprIter rng uids iids lr reg factors X Y n).1.rows = X.rows := by
  induction n with
  | zero => rfl
  | succ n ih => simp [bprIter, ih]

@[simp] theorem bprIter_fst_cols {rng : Nat → Nat} {uids iids : List Nat}
    {lr reg : ℝ} {factors : Nat} {X Y : Mat} {n : Nat} :
    (bprIter rng uids iids lr reg factors X Y n).1.cols = X.cols := by
  induction n with
  | zero => rfl
  | succ n ih => simp [bprIter, ih]

@[simp] theorem bprIter_snd_rows {rng : Nat → Nat} {uids iids : List Nat}
    {lr reg : ℝ} {factors : Nat} {X Y : Mat} {n : Nat} :
    (bprIter rng uids iids lr reg factors X Y n).2.1.rows = Y.rows := by
  induction n with
  | zero => rfl
  | succ n ih => simp [bprIter, ih]

@[simp] theorem bprIter_snd_cols {rng : Nat → Nat} {uids iids : List Nat}
    {lr reg : ℝ} {factors : Nat} {X Y : Mat} {n : Nat} :
    (bprIter rng uids iids lr reg factors X Y n).2.1.cols = Y.cols := by
  induction n with
  | zero => rfl
  | succ n ih => simp [bprIter, ih]

/-- A user with no position in `userids` is never selected, so the loop
never writes to their row of `X`. -/
theorem bprIter_X_row_untouched {rng : Nat → Nat} {uids iids : List Nat}
    {lr reg : ℝ} {factors : Nat} {X Y : Mat} {u0 : Nat}
    (hu : u0 ∉ uids) (hrng : ∀ k, rng k < uids.length) (c n : Nat) :
    (bprIter rng uids iids lr reg factors X Y n).1.entry u0 c = X.entry u0 c := by
  induction n with
  | zero => rfl
  | succ n ih =>
    have hmem : uids.getD (rng (2 * n)) 0 ∈ uids := by
      rw [List.getD_eq_getElem uids 0 (hrng (2 * n))]
      exact List.getElem_mem _
    have hne : u0 ≠ uids.getD (rng (2 * n)) 0 := by
      rintro rfl
      exact hu hmem
    simp only [bprIter]
    rw [bprStep_X_untouched (Or.inl hne), ih]

/-- An item with no position in `itemids` is never drawn as liked or
disliked, so the loop never writes to its row of `Y`. -/
theorem bprIter_Y_row_untouched {rng : Nat → Nat} {uids iids : List Nat}
    {lr reg : ℝ} {factors : Nat} {X Y : Mat} {it : Nat}
    (hit : it ∉ iids) (hrng : ∀ k, rng k < iids.length) (c n : Nat) :
    (bprIter rng uids iids lr reg factors X Y n).2.1.entry it c = Y.entry it c := by
  induction n with
  | zero => rfl
  | succ n ih =>
    have hmem1 : iids.getD (rng (2 * n)) 0 ∈ iids := by
      rw [List.getD_eq_getElem iids 0 (hrng (2 * n))]
      exact List.getElem_mem _
    have hmem2 : iids.getD (rng (2 * n + 1)) 0 ∈ iids := by
      rw [List.getD_eq_getElem iids 0 (hrng (2 * n + 1))]
      exact List.getElem_mem _
    have hne1 : it ≠ iids.getD (rng (2 * n)) 0 := by
      rintro rfl
      exact hit hmem1
    have hne2 : it ≠ iids.getD (rng (2 * n + 1)) 0 := by
      rintro rfl
      exact hit hmem2
    simp only [bprIter]
    rw [bprStep_Y_untouched ⟨hne1, hne2⟩, ih]

/-- No column of `X` at or beyond index `factors` is ever written by the
sample loop; in particular the user bias column is never updated. -/
theorem bprIter_X_high_untouched {rng : Nat → Nat} {uids iids : List Nat}
    {lr reg : ℝ} {factors : Nat} {X Y : Mat} {c : Nat}
    (hc : ¬c < factors) (r0 n : Nat) :
    (bprIter rng uids iids lr reg factors X Y n).1.entry r0 c = X.entry r0 c := by
  induction n with
  | zero => rfl
  | succ n ih =>
    simp only [bprIter]
    rw [bprStep_X_untouched (Or.inr hc), ih]

open Classical in
/-- The correct count after `n` samples is the number of sample positions
whose pre-update score was strictly positive. -/
theorem bprIter_count {rng : Nat → Nat} {uids iids : List Nat}
    {lr reg : ℝ} {factors : Nat} {X Y : Mat} (n : Nat) :
    (bprIter rng uids iids lr reg factors X Y n).2.2
      = ((Finset.range n).filter
          fun i => 0 < sampleScore rng uids iids lr reg factors X Y i).card := by
  induction n with
  | zero => rfl
  | succ n ih =>
    rw [Finset.range_succ, Finset.filter_insert]
    have hs : sampleScore rng uids iids lr reg factors X Y n
        = scoreOf factors (uids.getD (rng (2 * n)) 0) (iids.getD (rng (2 * n)) 0)
          (iids.getD (rng (2 * n + 1)) 0)
          (bprIter rng uids iids lr reg factors X Y n).1
          (bprIter rng uids iids lr reg factors X Y n).2.1 := rfl
    by_cases h : 0 < sampleScore rng uids iids lr reg factors X Y n
    · rw [if_pos h, Finset.card_insert_of_not_mem (by simp)]
      have hb : (bprStep lr reg factors (uids.getD (rng (2 * n)) 0)
          (iids.getD (rng (2 * n)) 0) (iids.getD (rng (2 * n + 1)) 0)
          (bprIter rng uids iids lr reg factors X Y n).1
          (bprIter rng uids iids lr reg factors X Y n).2.1).2.2 = true :=
        bprStep_correct_iff.mpr (by rw [← hs]; exact h)
      simp only [bprIter]
      rw [hb, if_pos rfl, ih]
    · rw [if_neg h]
      have hb : (bprStep lr reg factors (uids.getD (rng (2 * n)) 0)
          (iids.getD (rng (2 * n)) 0) (iids.getD (rng (2 * n + 1)) 0)
          (bprIter rng uids iids lr reg factors X Y n).1
          (bprIter rng uids iids lr reg factors X Y n).2.1).2.2 = false := by
        rw [Bool.eq_false_iff]
        intro hb
        exact h (by rw [hs]; exact bprStep_correct_iff.mp hb)
      simp only [bprIter]
      rw [hb, if_neg (by simp), ih, Nat.add_zero]

/-! ## Epoch-level lemmas -/

@[simp] theorem bpr_update_fst_rows {rng : Nat → Nat} {uids iids : List Nat}
    {X Y : Mat} {lr reg : ℝ} :
    (bpr_update rng uids iids X Y lr reg).1.rows = X.rows := bprIter_fst_rows

@[simp] theorem bpr_update_fst_cols {rng : Nat → Nat} {uids iids : List Nat}
    {X Y : Mat} {lr reg : ℝ} :
    (bpr_update rng uids iids X Y lr reg).1.cols = X.cols := bprIter_fst_cols

@[simp] theorem bpr_update_snd_rows {rng : Nat → Nat} {uids iids : List Nat}
    {X Y : Mat} {lr reg : ℝ} :
    (bpr_update rng uids iids X Y lr reg).2.1.rows = Y.rows := bprIter_snd_rows

@[simp] theorem bpr_update_snd_cols {rng : Nat → Nat} {uids iids : List Nat}
    {X Y : Mat} {lr reg : ℝ} :
    (bpr_update rng uids iids X Y lr reg).2.1.cols = Y.cols := bprIter_snd_cols

theorem runEpochs_X_row_untouched {rng : Nat → Nat} {uids iids : List Nat}
    {lr reg : ℝ} {u0 : Nat} (hu : u0 ∉ uids)
    (e : Nat) (rngh : ∀ k, rng k < uids.length) (X Y : Mat) (c : Nat) :
    (runEpochs rng uids iids lr reg e X Y).1.entry u0 c = X.entry u0 c := by
  induction e generalizing rng X Y with
  | zero => rfl
  | succ e ih =>
    simp only [runEpochs]
    exact (ih (fun k => rngh (k + 2 * uids.length)) _ _).trans
      (bprIter_X_row_untouched hu rngh c uids.length)

theorem runEpochs_Y_row_untouched {rng : Nat → Nat} {uids iids : List Nat}
    {lr reg : ℝ} {it : Nat} (hit : it ∉ iids)
    (e : Nat) (rngh : ∀ k, rng k < iids.length) (X Y : Mat) (c : Nat) :
    (runEpochs rng uids iids lr reg e X Y).2.entry it c = Y.entry it c := by
  induction e generalizing rng X Y with
  | zero => rfl
  | succ e ih =>
    simp only [runEpochs]
    exact (ih (fun k => rngh (k + 2 * uids.length)) _ _).trans
      (bprIter_Y_row_untouched hit rngh c uids.length)

theorem runEpochs_X_high_untouched {rng : Nat → Nat} {uids iids : List Nat}
    {lr reg : ℝ} {X Y : Mat} {c : Nat} (hc : ¬c < X.cols - 1)
    (r0 e : Nat) :
    (runEpochs rng uids iids lr reg e X Y).1.entry r0 c = X.entry r0 c := by
  induction e generalizing rng X Y with
  | zero => rfl
  | succ e ih =>
    simp only [runEpochs]
    have h2 : ¬c < (bpr_update rng uids iids X Y lr reg).1.cols - 1 := by
      simpa using hc
    exact (ih h2).trans (bprIter_X_high_untouched hc r0 uids.length)

@[simp] theorem runEpochs_fst_rows {rng : Nat → Nat} {uids iids : List Nat}
    {lr reg : ℝ} {e : Nat} {X Y : Mat} :
    (runEpochs rng uids iids lr reg e X Y).1.rows = X.rows := by
  induction e generalizing rng X Y with
  | zero => rfl
  | succ e ih => simp [runEpochs, ih]

@[simp] theorem runEpochs_fst_cols {rng : Nat → Nat} {uids iids : List Nat}
    {lr reg : ℝ} {e : Nat} {X Y : Mat} :
    (runEpochs rng uids iids lr reg e X Y).1.cols = X.cols := by
  induction e generalizing rng X Y with
  | zero => rfl
  | succ e ih => simp [runEpochs, ih]

@[simp] theorem runEpochs_snd_rows {rng : Nat → Nat} {uids iids : List Nat}
    {lr reg : ℝ} {e : Nat} {X Y : Mat} :
    (runEpochs rng uids iids lr reg e X Y).2.rows = Y.rows := by
  induction e generalizing rng X Y with
  | zero => rfl
  | succ e ih => simp [runEpochs, ih]

@[simp] theorem runEpochs_snd_cols {rng : Nat → Nat} {uids iids : List Nat}
    {lr reg : ℝ} {e : Nat} {X Y : Mat} :
    (runEpochs rng uids iids lr reg e X Y).2.cols = Y.cols := by
  induction e generalizing rng X Y with
  | zero => rfl
  | succ e ih => simp [runEpochs, ih]

/-! ## Claims -/

/-- C1: For every sample processed by the Updater, with
`z = 1/(1+exp(score))` where `score` is the dot product of `U[u]` and
`V[liked]-V[disliked]` over all K+1 columns, each learned dimension `j`
is updated as: with `t` the snapshot of `U[u][j]` taken before mutation,
`U[u][j] += eta*(z*(V[liked][j]-V[disliked][j]) - lambda*U[u][j])`, then
`V[liked][j] += eta*(z*t - lambda*V[liked][j])`, then
`V[disliked][j] += eta*(-z*t - lambda*V[disliked][j])`; the bias slot
(column K) of the liked and disliked rows is updated as
`V[liked][K] += eta*(z - lambda*V[liked][K])` and
`V[disliked][K] += eta*(-z - lambda*V[disliked][K])`, while `U`'s bias
slot is not updated.  (Stated for a sample whose liked and disliked item
rows are distinct, so that each listed right-hand side refers to the
pre-sample value.) -/
theorem claim_C1 (lr reg : ℝ) (factors u liked disliked : Nat) (X Y : Mat)
    (j : Nat) (hj : j < factors) (hld : liked ≠ disliked) :
    ((bprStep lr reg factors u liked disliked X Y).1.entry u j
        = X.entry u j
          + lr * (zOf (scoreOf factors u liked disliked X Y)
              * (Y.entry liked j - Y.entry disliked j) - reg * X.entry u j))
    ∧ ((bprStep lr reg factors u liked disliked X Y).2.1.entry liked j
        = Y.entry liked j
          + lr * (zOf (scoreOf factors u liked disliked X Y) * X.entry u j
              - reg * Y.entry liked j))
    ∧ ((bprStep lr reg factors u liked disliked X Y).2.1.entry disliked j
        = Y.entry disliked j
          + lr * (-zOf (scoreOf factors u liked disliked X Y) * X.entry u j
              - reg * Y.entry disliked j))
    ∧ ((bprStep lr reg factors u liked disliked X Y).2.1.entry liked factors
        = Y.entry liked factors
          + lr * (zOf (scoreOf factors u liked disliked X Y)
              - reg * Y.entry liked factors))
    ∧ ((bprStep lr reg factors u liked disliked X Y).2.1.entry disliked factors
        = Y.entry disliked factors
          + lr * (-zOf (scoreOf factors u liked disliked X Y)
              - reg * Y.entry disliked factors))
    ∧ (bprStep lr reg factors u liked disliked X Y).1.entry u factors
        = X.entry u factors :=
  ⟨bprStep_X_formula hj, bprStep_Y_liked_formula hld hj,
    bprStep_Y_disliked_formula hld hj, bprStep_Y_liked_bias hld,
    bprStep_Y_disliked_bias hld, bprStep_X_bias u⟩

theorem claim_C1_witness :
    ((0 < 1 ∧ (0 : Nat) ≠ 1)
    ∧ ((bprStep 1 1 1 0 0 1 mat0 mat0).1.entry 0 0
        = mat0.entry 0 0
          + 1 * (zOf (scoreOf 1 0 0 1 mat0 mat0)
              * (mat0.entry 0 0 - mat0.entry 1 0) - 1 * mat0.entry 0 0))
    ∧ ((bprStep 1 1 1 0 0 1 mat0 mat0).2.1.entry 0 0
        = mat0.entry 0 0
          + 1 * (zOf (scoreOf 1 0 0 1 mat0 mat0) * mat0.entry 0 0
              - 1 * mat0.entry 0 0))
    ∧ ((bprStep 1 1 1 0 0 1 mat0 mat0).2.1.entry 1 0
        = mat0.entry 1 0
          + 1 * (-zOf (scoreOf 1 0 0 1 mat0 mat0) * mat0.entry 0 0
              - 1 * mat0.entry 1 0))
    ∧ ((bprStep 1 1 1 0 0 1 mat0 mat0).2.1.entry 0 1
        = mat0.entry 0 1
          + 1 * (zOf (scoreOf 1 0 0 1 mat0 mat0) - 1 * mat0.entry 0 1))
    ∧ ((bprStep 1 1 1 0 0 1 mat0 mat0).2.1.entry 1 1
        = mat0.entry 1 1
          + 1 * (-zOf (scoreOf 1 0 0 1 mat0 mat0) - 1 * mat0.entry 1 1))
    ∧ (bprStep 1 1 1 0 0 1 mat0 mat0).1.entry 0 1 = mat0.entry 0 1) :=
  ⟨by decide, claim_C1 1 1 1 0 0 1 mat0 mat0 0 (by decide) (by decide)⟩

open Classical in
/-- C3: For every epoch, the count returned by the Updater equals the
number of processed sample positions whose score (dot product of `U[u]`
and `V[liked]-V[disliked]`) was strictly positive, i.e. `z < 0.5`,
evaluated before that sample's update is applied; the returned count
satisfies `0 <= correct <= N` for `N` samples (the count is a natural
number, so the lower bound is inherent). -/
theorem claim_C3 (rng : Nat → Nat) (userids itemids : List Nat)
    (X Y : Mat) (lr reg : ℝ) :
    (bpr_update rng userids itemids X Y lr reg).2.2
      = ((Finset.range userids.length).filter
          fun i => 0 < sampleScore rng userids itemids lr reg (X.cols - 1) X Y i).card
    ∧ (bpr_update rng userids itemids X Y lr reg).2.2 ≤ userids.length := by
  constructor
  · exact bprIter_count userids.length
  · rw [bpr_update, bprIter_count userids.length]
    calc ((Finset.range userids.length).filter
          fun i => 0 < sampleScore rng userids itemids lr reg (X.cols - 1) X Y i).card
        ≤ (Finset.range userids.length).card := Finset.card_filter_le _ _
      _ = userids.length := Finset.card_range _

/-- C4: For every sample position `i` assigned to the (single) worker, the
Updater draws the two positions `p_liked = rng (2*i)` and
`p_disliked = rng (2*i+1)` from the worker's own sampler, both within
`[0, N-1]`; the user is taken from `p_liked` and the two item ids from
`p_liked` and `p_disliked` respectively — each drawn id names an observed
interaction — and the update step is applied unconditionally, by the
stated unconditional loop equation, so duplicate draws are not
filtered. -/
theorem claim_C4 (rng : Nat → Nat) (userids itemids : List Nat)
    (lr reg : ℝ) (factors : Nat) (X Y : Mat) (i : Nat)
    (hrng : ∀ n, rng n < userids.length)
    (hlen : itemids.length = userids.length) :
    rng (2 * i) < userids.length
    ∧ rng (2 * i + 1) < userids.length
    ∧ userids.getD (rng (2 * i)) 0 ∈ userids
    ∧ itemids.getD (rng (2 * i)) 0 ∈ itemids
    ∧ itemids.getD (rng (2 * i + 1)) 0 ∈ itemids
    ∧ bprIter rng userids itemids lr reg factors X Y (i + 1)
        = (let s := bprIter rng userids itemids lr reg factors X Y i
           let r := bprStep lr reg factors (userids.getD (rng (2 * i)) 0)
             (itemids.getD (rng (2 * i)) 0)
             (itemids.getD (rng (2 * i + 1)) 0) s.1 s.2.1
           (r.1, r.2.1, s.2.2 + if r.2.2 then 1 else 0)) := by
  refine ⟨hrng _, hrng _, ?_, ?_, ?_, rfl⟩
  · rw [List.getD_eq_getElem userids 0 (hrng (2 * i))]
    exact List.getElem_mem _
  · rw [List.getD_eq_getElem itemids 0 (by rw [hlen]; exact hrng (2 * i))]
    exact List.getElem_mem _
  · rw [List.getD_eq_getElem itemids 0 (by rw [hlen]; exact hrng (2 * i + 1))]
    exact List.getElem_mem _

theorem claim_C4_witness :
    (rng0 (2 * 0) = rng0 (2 * 0 + 1)
    ∧ rng0 (2 * 0) < ([0] : List Nat).length
    ∧ rng0 (2 * 0 + 1) < ([0] : List Nat).length
    ∧ ([0] : List Nat).getD (rng0 (2 * 0)) 0 ∈ ([0] : List Nat)
    ∧ ([0] : List Nat).getD (rng0 (2 * 0)) 0 ∈ ([0] : List Nat)
    ∧ ([0] : List Nat).getD (rng0 (2 * 0 + 1)) 0 ∈ ([0] : List Nat)
    ∧ bprIter rng0 [0] [0] 1 1 1 mat0 mat0 (0 + 1)
        = (let s := bprIter rng0 [0] [0] 1 1 1 mat0 mat0 0
           let r := bprStep 1 1 1 (([0] : List Nat).getD (rng0 (2 * 0)) 0)
             (([0] : List Nat).getD (rng0 (2 * 0)) 0)
             (([0] : List Nat).getD (rng0 (2 * 0 + 1)) 0) s.1 s.2.1
           (r.1, r.2.1, s.2.2 + if r.2.2 then 1 else 0))) :=
  ⟨rfl, claim_C4 rng0 [0] [0] 1 1 1 mat0 mat0 0 (fun _ => Nat.one_pos) rfl⟩

/-- C6: With worker count 1 and a fixed RNG seed (hence equal draw
streams), any two calls to the Updater over the same Interaction Index
and the same starting factor matrices produce identical resulting
matrices and the same correct count. -/
theorem claim_C6 (rng₁ rng₂ : Nat → Nat) (userids itemids : List Nat)
    (X₁ X₂ Y₁ Y₂ : Mat) (lr reg : ℝ)
    (hrng : ∀ n, rng₁ n = rng₂ n) (hX : X₁ = X₂) (hY : Y₁ = Y₂) :
    bpr_update rng₁ userids itemids X₁ Y₁ lr reg
      = bpr_update rng₂ userids itemids X₂ Y₂ lr reg := by
  have h : rng₁ = rng₂ := funext hrng
  rw [h, hX, hY]

theorem claim_C6_witness :
    bpr_update rng0 [0] [0] mat0 mat0 1 1
      = bpr_update rng0 [0] [0] mat0 mat0 1 1 :=
  claim_C6 rng0 rng0 [0] [0] mat0 mat0 mat0 mat0 1 1 (fun _ => rfl) rfl rfl

/-- C7: When training is requested with the device-offload flag set and no
accelerator backend is available, the training call fails with a
configuration error; it does not fall back to the CPU path and no
training epoch runs. -/
theorem claim_C7 (m : BPRModel) (ext : Externals) (input : Coo)
    (hgpu : m.use_gpu = true) (hcuda : ext.hasCuda = false) :
    fit m ext input = Except.error FitError.noCuda := by
  simp [fit, fitCoo, hgpu, hcuda]

theorem claim_C7_witness :
    mGpu.use_gpu = true ∧ extC.hasCuda = false
    ∧ fit mGpu extC cooA = Except.error FitError.noCuda :=
  ⟨rfl, rfl, claim_C7 mGpu extC cooA rfl rfl⟩

/-- C9: For any two input interaction matrices with the same shape and the
same stored coordinate arrays but arbitrary (different) entry values and
dtype, training with the same configuration and the same external
randomness produces identical results: entry magnitude never influences
the outcome, only presence or absence of an entry does. -/
theorem claim_C9 (m : BPRModel) (ext : Externals) (in₁ in₂ : Coo)
    (hrow : in₁.row = in₂.row) (hcol : in₁.col = in₂.col)
    (hnr : in₁.nrows = in₂.nrows) (hnc : in₁.ncols = in₂.ncols) :
    fit m ext in₁ = fit m ext in₂ := by
  simp only [fit, fitCoo, astypeF32_row, astypeF32_col, astypeF32_nrows,
    astypeF32_ncols, hrow, hcol, hnr, hnc]

theorem claim_C9_witness :
    cooA.data ≠ cooD.data ∧ fit mCold extC cooA = fit mCold extC cooD :=
  ⟨by norm_num [cooA, cooD], claim_C9 mCold extC cooA cooD rfl rfl rfl rfl⟩

/-- C10: If the training entry point is called when `user_factors` and
`item_factors` are already set from a prior call, those matrices are
reused unchanged as the starting point — they are not re-randomized,
zero-interaction rows are not re-zeroed, the user-bias column is not
re-assigned — and the training epochs accumulate updates directly onto
the existing values: the result is exactly the epoch loop run from the
retained matrices. -/
theorem claim_C10 (m : BPRModel) (ext : Externals) (input : Coo) (U V : Mat)
    (hU : m.user_factors = some U) (hV : m.item_factors = some V)
    (hgpu : m.use_gpu = false) :
    fit m ext input
      = Except.ok { m with
          user_factors := some (runEpochs ext.rng input.col input.row
            m.learning_rate m.regularization m.iterations U V).1,
          item_factors := some (runEpochs ext.rng input.col input.row
            m.learning_rate m.regularization m.iterations U V).2 } := by
  simp [fit, fitCoo, hU, hV, hgpu]

theorem claim_C10_witness :
    mWarm.user_factors = some mat0 ∧ mWarm.item_factors = some mat0
    ∧ fit mWarm extC cooA
      = Except.ok { mWarm with
          user_factors := some (runEpochs extC.rng cooA.col cooA.row
            mWarm.learning_rate mWarm.regularization mWarm.iterations
            mat0 mat0).1,
          item_factors := some (runEpochs extC.rng cooA.col cooA.row
            mWarm.learning_rate mWarm.regularization mWarm.iterations
            mat0 mat0).2 } :=
  ⟨rfl, rfl, claim_C10 mWarm extC cooA mat0 mat0 rfl rfl rfl⟩

/-- C5: For every user row of `U`, the bias column at index K (`= cols-1`)
equals exactly 1.0 after initialization and after any number of training
epochs on the CPU path; and no Updater call ever writes to `U`'s bias
column. -/
theorem claim_C5 :
    (∀ (rng : Nat → Nat) (userids itemids : List Nat) (X Y : Mat)
       (lr reg : ℝ) (r : Nat),
       (bpr_update rng userids itemids X Y lr reg).1.entry r (X.cols - 1)
         = X.entry r (X.cols - 1))
    ∧ ∀ (m : BPRModel) (ext : Externals) (input : Coo) (m' : BPRModel),
        m.use_gpu = false → m.user_factors = none →
        fit m ext input = Except.ok m' →
        ∀ u, ((m'.user_factors).getD dummyMat).entry u m.factors = 1 := by
  constructor
  · intro rng uids iids X Y lr reg r
    exact bprIter_X_high_untouched (by omega) r uids.length
  · intro m ext input m' hgpu hU hok
    simp only [fit, fitCoo, hgpu, hU, Option.getD_none, Bool.false_eq_true,
      if_false, astypeF32_row, astypeF32_col, astypeF32_nrows, astypeF32_ncols,
      Except.ok.injEq] at hok
    intro u
    rw [← hok]
    simp only [Option.getD_some]
    rw [runEpochs_X_high_untouched (by simp [initUserFactors])]
    simp [initUserFactors]

theorem claim_C5_witness :
    fit mCold extC cooA = Except.ok fitColdResult
    ∧ ((fitColdResult.user_factors).getD dummyMat).entry 0 1 = 1 :=
  ⟨rfl, claim_C5.2 mCold extC cooA fitColdResult rfl rfl rfl 0⟩

/-- C2 (amended): on the CPU path starting from fresh factor matrices,
a zero-interaction row is zeroed at initialization only when the short
bincount mask (length `max(observed id) + 1`, no `minlength`) covers it.
Covered zero-interaction item rows of `V` are all-zero and stay exactly
all-zero after any number of epochs; zero-interaction item rows beyond
the mask are never zeroed — they keep their random initialization (and
on numpy ≥ 1.13 the program instead raises `IndexError` at the masked
assignment, before training).  Covered zero-interaction user rows of `U`
are zero in every column other than the bias column, which is set to 1.0
— not 0 — for every user row; beyond the mask they keep their random
values except for the 1.0 bias.  All such rows are never touched by any
update. -/
theorem claim_C2_amended (m : BPRModel) (ext : Externals) (input : Coo)
    (m' : BPRModel)
    (hgpu : m.use_gpu = false) (hU : m.user_factors = none)
    (hV : m.item_factors = none)
    (hrng : ∀ n, ext.rng n < input.col.length)
    (hlen : input.row.length = input.col.length)
    (hok : fit m ext input = Except.ok m') :
    (∀ it, input.row.count it = 0 → it < bincountLen input.row →
       ∀ j, ((m'.item_factors).getD dummyMat).entry it j = 0)
    ∧ (∀ it, input.row.count it = 0 → ¬it < bincountLen input.row →
       ∀ j, ((m'.item_factors).getD dummyMat).entry it j = ext.randItem it j)
    ∧ ∀ u, input.col.count u = 0 →
       (∀ j, j ≠ m.factors → u < bincountLen input.col →
         ((m'.user_factors).getD dummyMat).entry u j = 0)
       ∧ (∀ j, j ≠ m.factors → ¬u < bincountLen input.col →
         ((m'.user_factors).getD dummyMat).entry u j = ext.randUser u j)
       ∧ ((m'.user_factors).getD dummyMat).entry u m.factors = 1 := by
  simp only [fit, fitCoo, hgpu, hU, hV, Option.getD_none, Bool.false_eq_true,
    if_false, astypeF32_row, astypeF32_col, astypeF32_nrows, astypeF32_ncols,
    Except.ok.injEq] at hok
  refine ⟨?_, ?_, ?_⟩
  · intro it hcount hlt j
    rw [← hok]
    simp only [Option.getD_some]
    rw [runEpochs_Y_row_untouched (List.count_eq_zero.mp hcount) _
      (fun k => by rw [hlen]; exact hrng k) _ _]
    simp [initItemFactors, hcount, hlt]
  · intro it hcount hnlt j
    rw [← hok]
    simp only [Option.getD_some]
    rw [runEpochs_Y_row_untouched (List.count_eq_zero.mp hcount) _
      (fun k => by rw [hlen]; exact hrng k) _ _]
    simp [initItemFactors, hnlt]
  · intro u hcount
    refine ⟨?_, ?_, ?_⟩
    · intro j hj hlt
      rw [← hok]
      simp only [Option.getD_some]
      rw [runEpochs_X_row_untouched (List.count_eq_zero.mp hcount) _ hrng _ _]
      simp [initUserFactors, hcount, hlt, hj]
    · intro j hj hnlt
      rw [← hok]
      simp only [Option.getD_some]
      rw [runEpochs_X_row_untouched (List.count_eq_zero.mp hcount) _ hrng _ _]
      simp [initUserFactors, hnlt, hj]
    · rw [← hok]
      simp only [Option.getD_some]
      rw [runEpochs_X_row_untouched (List.count_eq_zero.mp hcount) _ hrng _ _]
      simp [initUserFactors]

/-- C2 (counterexample): user 0 has zero observed interactions in the
interaction index `[1]` over 2 users and is covered by the bincount mask
(length 2), so the program zeroes the row and then writes the 1.0 bias —
the initialized `U` row of this zero-interaction user is not all-zero:
its bias entry (column 1 for K = 1) is 1. -/
theorem claim_C2_counterexample :
    (([1] : List Nat).count 0 = 0 ∧ 0 < bincountLen [1])
    ∧ (initUserFactors extC 2 1 [1]).entry 0 1 ≠ 0 := by
  constructor
  · exact ⟨by decide, by decide⟩
  · norm_num [initUserFactors]

theorem claim_C2_witness :
    (cooE.row.count 0 = 0 ∧ 0 < bincountLen cooE.row
    ∧ cooE.row.count 2 = 0 ∧ ¬2 < bincountLen cooE.row
    ∧ cooE.col.count 0 = 0 ∧ cooE.col.count 2 = 0
    ∧ fit mCold extC cooE = Except.ok fitCooEResult)
    ∧ ((fitCooEResult.item_factors).getD dummyMat).entry 0 0 = 0
    ∧ ((fitCooEResult.item_factors).getD dummyMat).entry 2 0 = extC.randItem 2 0
    ∧ ((fitCooEResult.user_factors).getD dummyMat).entry 0 0 = 0
    ∧ ((fitCooEResult.user_factors).getD dummyMat).entry 2 0 = extC.randUser 2 0
    ∧ ((fitCooEResult.user_factors).getD dummyMat).entry 2 1 = 1 := by
  have h := claim_C2_amended mCold extC cooE fitCooEResult rfl rfl rfl
    (fun _ => Nat.one_pos) rfl rfl
  exact ⟨⟨rfl, by decide, rfl, by decide, rfl, rfl, rfl⟩,
    h.1 0 rfl (by decide) 0,
    h.2.1 2 rfl (by decide) 0,
    (h.2.2 0 rfl).1 0 (by decide) (by decide),
    (h.2.2 2 rfl).2.1 0 (by decide) (by decide),
    (h.2.2 2 rfl).2.2⟩

/-- C8 (amended): the training entry point coerces any input whose dtype
is not single-precision to single-precision before training, preserving
the coordinate arrays and the shape; no validation of the input shape
against factor matrices retained from a prior call is performed, so a
mismatched call is never reported fatally.  The no-report half is stated
for calls whose interaction ids all lie within the retained matrices'
row counts: there the source performs only in-bounds accesses and the
call genuinely proceeds and completes normally (the in-bounds hypotheses
confine the statement to the region where the total-matrix embedding is
faithful — ids at or beyond the retained rows make the unchecked
`boundscheck(False)` accesses undefined behavior, not an error report,
and the embedding asserts nothing about those calls). -/
theorem claim_C8_amended (input : Coo) :
    ((astypeF32 input).dtype = Dtype.float32
    ∧ (astypeF32 input).row = input.row
    ∧ (astypeF32 input).col = input.col
    ∧ (astypeF32 input).nrows = input.nrows
    ∧ (astypeF32 input).ncols = input.ncols)
    ∧ ∀ (m : BPRModel) (ext : Externals) (U V : Mat), m.use_gpu = false →
        m.user_factors = some U → m.item_factors = some V →
        (∀ id ∈ input.col, id < U.rows) → (∀ id ∈ input.row, id < V.rows) →
        fitSucceeds (fit m ext input) = true := by
  refine ⟨⟨astypeF32_dtype _, astypeF32_row _, astypeF32_col _,
    astypeF32_nrows _, astypeF32_ncols _⟩, ?_⟩
  intro m ext U V hgpu hU hV hbc hbr
  simp [fit, fitCoo, fitSucceeds, hgpu, hU, hV]

/-- C8 (counterexample): `mMismatch` retains 5-row factor matrices from a
prior call while `cooB` is a 3×3 input, a shape mismatch; every id of
`cooB` stays below 5, so the traced call performs only in-bounds
accesses, is not reported fatally, and returns normally — refuting the
claim that a shape-mismatched call is reported fatally. -/
theorem claim_C8_counterexample :
    (mMismatch.user_factors = some matRetained
    ∧ mMismatch.item_factors = some matRetained
    ∧ matRetained.rows = 5 ∧ cooB.nrows = 3 ∧ cooB.ncols = 3
    ∧ cooB.col.all (fun id => decide (id < matRetained.rows)) = true
    ∧ cooB.row.all (fun id => decide (id < matRetained.rows)) = true)
    ∧ fitSucceeds (fit mMismatch extC cooB) = true :=
  ⟨⟨rfl, rfl, rfl, rfl, rfl, rfl, rfl⟩, rfl⟩

theorem claim_C8_witness :
    (mMismatch.use_gpu = false
    ∧ mMismatch.user_factors = some matRetained
    ∧ mMismatch.item_factors = some matRetained)
    ∧ fitSucceeds (fit mMismatch extC cooB) = true :=
  ⟨⟨rfl, rfl, rfl⟩,
    (claim_C8_amended cooB).2 mMismatch extC matRetained matRetained rfl rfl rfl
      (by decide) (by decide)⟩

end BPR
